import Mathlib

/-!
Verification of the GitHub multi-user invite client (`src/utils.py`).

The file embeds the `github` class shallowly: JSON values are an inductive
type, the `requests` library is replaced by an environment function giving
the network outcome of each attempt (a response, a timeout, or another
request exception), and `gh_request`'s retry loop becomes a fuel-based
recursion whose fuel is the number of remaining loop iterations
(`max_retries - attempt`).  The result of a call records, besides its
outcome (returned response or raised `GithubAPIError`), the HTTP requests
actually issued and the sleeps performed, so that retry counts, backoff
delays, headers and payloads can be stated.
-/

/-- JSON values, as passed to and parsed from the API.  Mirrors the Python
`dict`/`list`/`int`/`str` payloads used by `utils.py`. -/
inductive Json where
  | null : Json
  | bool (b : Bool) : Json
  | num (n : Int) : Json
  | str (s : String) : Json
  | arr (xs : List Json) : Json
  | obj (fields : List (String × Json)) : Json
deriving Repr

/-- Escape of one character inside a JSON string literal, as `json.dumps`
does for the characters that can occur in this client's payloads. -/
def escapeChar (c : Char) : String :=
  if c = '\"' then "\\\"" else if c = '\\' then "\\\\" else String.singleton c

/-- Escape of a string for inclusion in a JSON document. -/
def escapeString (s : String) : String :=
  String.join (s.toList.map escapeChar)

mutual

/-- `json.dumps` with Python's default separators (", " and ": "),
which is what `utils.py` calls on the request payload. -/
def Json.dumps : Json → String
  | Json.null => "null"
  | Json.bool b => if b then "true" else "false"
  | Json.num n => toString n
  | Json.str s => "\"" ++ escapeString s ++ "\""
  | Json.arr xs => "[" ++ Json.dumpsArr xs ++ "]"
  | Json.obj fs => "\x7b" ++ Json.dumpsObj fs ++ "\x7d"

/-- Serialization of the elements of a JSON array, comma separated. -/
def Json.dumpsArr : List Json → String
  | [] => ""
  | [x] => Json.dumps x
  | x :: y :: xs => Json.dumps x ++ ", " ++ Json.dumpsArr (y :: xs)

/-- Serialization of the fields of a JSON object, comma separated. -/
def Json.dumpsObj : List (String × Json) → String
  | [] => ""
  | [(k, v)] => "\"" ++ escapeString k ++ "\": " ++ Json.dumps v
  | (k, v) :: f :: fs =>
      "\"" ++ escapeString k ++ "\": " ++ Json.dumps v ++ ", " ++
        Json.dumpsObj (f :: fs)

end

/-- Dictionary lookup `j[k]` on a parsed JSON value: `some` value when `j`
is an object containing key `k`, `none` when the subscript would raise. -/
def Json.index (j : Json) (k : String) : Option Json :=
  match j with
  | Json.obj fs => fs.lookup k
  | _ => none

/-- An HTTP response: status code plus parsed JSON body (`res.json()`). -/
structure Response where
  status_code : Nat
  body : Json
deriving Repr

/-- The network-level outcome of one attempt of `requests.request`:
a response, a `Timeout` exception, or another `RequestException`
(the latter carrying `str(e)` and `getattr(e.response, 'status_code',
None)`). -/
inductive AttemptResult where
  | ok (res : Response) : AttemptResult
  | timeout (msg : String) : AttemptResult
  | reqError (msg : String) (status : Option Nat) : AttemptResult
deriving Repr

/-- The `GithubAPIError` exception: message, optional HTTP status code,
optional parsed error body. -/
structure GithubAPIError where
  message : String
  status_code : Option Nat
  response : Option Json
deriving Repr

/-- The `github` client class: token, optional organization, and the
configuration set by `__init__`. -/
structure github where
  auth : String
  org : Option String
  timeout : Nat
  max_retries : Nat
  retry_delay : Nat
deriving Repr, DecidableEq

/-- `github.__init__(auth, org)`: `timeout = 30`, `max_retries = 3`,
`retry_delay = 1`. -/
def github.init (auth : String) (org : Option String) : github :=
  { auth := auth, org := org, timeout := 30, max_retries := 3, retry_delay := 1 }

/-- An HTTP request as handed to `requests.request`: method, full URL,
headers, optional serialized payload (`None` when the body dict was
empty), and per-attempt timeout. -/
structure Request where
  method : String
  url : String
  headers : List (String × String)
  payload : Option String
  timeout : Nat
deriving Repr, DecidableEq

/-- The headers attached to every request by `gh_request`. -/
def github.gh_headers (g : github) : List (String × String) :=
  [("Accept", "application/vnd.github+json"),
   ("Authorization", "Bearer " ++ g.auth),
   ("X-GitHub-Api-Version", "2022-11-28")]

/-- `data = json.dumps(data) if data != {} else None` (line 50): the body
dict is serialized unless it is the empty dict. -/
def serializeData (data : Json) : Option String :=
  match data with
  | Json.obj [] => none
  | d => some (Json.dumps d)

/-- The request object `gh_request` builds for each attempt
(lines 60-70 of `utils.py`). -/
def github.gh_build_request (g : github) (path : String) (method : String)
    (data : Json) : Request :=
  { method := method
    url := "https://api.github.com" ++ path
    headers := g.gh_headers
    payload := serializeData data
    timeout := g.timeout }

/-- Result of running the retry loop: the outcome (`Except.ok` for a
returned response, `Except.error` for a raised `GithubAPIError`),
the number of attempts that issued a request, and the list of sleep
durations performed, in order. -/
structure GhResult where
  outcome : Except GithubAPIError Response
  attempts : Nat
  sleeps : List Nat
deriving Repr

/-- The body of `for attempt in range(self.max_retries)` in `gh_request`
(lines 53-99 of `utils.py`), as a recursion on the remaining number of
iterations (`fuel`).  `attempt` is the Python loop index, `lastExc` the
current value of `last_exception` (as `str(e)`), and `env i` the network
outcome of attempt `i`.  Fuel 0 is the fall-through after the loop:
`raise GithubAPIError(f"All retry attempts failed: {last_exception}")`. -/
def github.ghLoop (g : github) (env : Nat → AttemptResult) :
    Nat → Nat → Option String → GhResult
  | 0, _attempt, lastExc =>
      { outcome := Except.error
          { message := "All retry attempts failed: " ++
              (match lastExc with | none => "None" | some s => s)
            status_code := none
            response := none }
        attempts := 0
        sleeps := [] }
  | fuel + 1, attempt, lastExc =>
      let sleepsNow : List Nat :=
        if attempt > 0 then [g.retry_delay * 2 ^ (attempt - 1)] else []
      match env attempt with
      | AttemptResult.ok res =>
          if 400 ≤ res.status_code ∧ res.status_code < 500 ∧
              res.status_code ≠ 403 then
            if res.status_code = 401 then
              { outcome := Except.error
                  { message := "Authentication failed. Please check your GitHub token"
                    status_code := some res.status_code
                    response := some res.body }
                attempts := 1
                sleeps := sleepsNow }
            else if res.status_code = 404 then
              { outcome := Except.ok res, attempts := 1, sleeps := sleepsNow }
            else
              { outcome := Except.error
                  { message := "Client error: " ++ toString res.status_code
                    status_code := some res.status_code
                    response := some res.body }
                attempts := 1
                sleeps := sleepsNow }
          else if res.status_code = 403 ∨ 500 ≤ res.status_code then
            if attempt = g.max_retries - 1 then
              if res.status_code = 403 then
                { outcome := Except.error
                    { message := "Rate limit exceeded or insufficient permissions"
                      status_code := some res.status_code
                      response := some res.body }
                  attempts := 1
                  sleeps := sleepsNow }
              else
                { outcome := Except.error
                    { message := "GitHub server error"
                      status_code := some res.status_code
                      response := some res.body }
                  attempts := 1
                  sleeps := sleepsNow }
            else
              let rest := github.ghLoop g env fuel (attempt + 1) lastExc
              { outcome := rest.outcome
                attempts := rest.attempts + 1
                sleeps := sleepsNow ++ rest.sleeps }
          else
            { outcome := Except.ok res, attempts := 1, sleeps := sleepsNow }
      | AttemptResult.timeout msg =>
          if attempt = g.max_retries - 1 then
            { outcome := Except.error
                { message := "Request timed out after " ++ toString g.timeout ++
                    " seconds"
                  status_code := none
                  response := none }
              attempts := 1
              sleeps := sleepsNow }
          else
            let rest := github.ghLoop g env fuel (attempt + 1) (some msg)
            { outcome := rest.outcome
              attempts := rest.attempts + 1
              sleeps := sleepsNow ++ rest.sleeps }
      | AttemptResult.reqError msg st =>
          if attempt = g.max_retries - 1 then
            { outcome := Except.error
                { message := "Network error: " ++ msg
                  status_code := st
                  response := none }
              attempts := 1
              sleeps := sleepsNow }
          else
            let rest := github.ghLoop g env fuel (attempt + 1) (some msg)
            { outcome := rest.outcome
              attempts := rest.attempts + 1
              sleeps := sleepsNow ++ rest.sleeps }

/-- The full record of one `gh_request` call: the requests issued
(one identical request per attempt, since the payload is serialized once
before the loop), the sleeps performed, and the outcome. -/
structure GhCall where
  requests : List Request
  sleeps : List Nat
  outcome : Except GithubAPIError Response
deriving Repr

/-- `github.gh_request(path, method, data)` under network environment
`env`. -/
def github.gh_request (g : github) (path : String) (method : String)
    (data : Json) (env : Nat → AttemptResult) : GhCall :=
  let r := g.ghLoop env g.max_retries 0 none
  { requests := List.replicate r.attempts (g.gh_build_request path method data)
    sleeps := r.sleeps
    outcome := r.outcome }

/-- Outcome of a Python-level call: a value, a raised `GithubAPIError`,
or another raised exception (`TypeError`, `KeyError`, ...). -/
inductive PyOutcome (α : Type) where
  | ok (a : α) : PyOutcome α
  | apiError (e : GithubAPIError) : PyOutcome α
  | pyError (msg : String) : PyOutcome α
deriving Repr

/-- `github.invite_user_org(org, user, teams, role)` (lines 103-130):
POST `/orgs/{org}/invitations` with body
`{"invitee_id": user, "role": role, "team_ids": teams}`, returning the
response. -/
def github.invite_user_org (g : github) (org : String) (user : Int)
    (teams : List Int) (role : String) (env : Nat → AttemptResult) : GhCall :=
  g.gh_request ("/orgs/" ++ org ++ "/invitations") "POST"
    (Json.obj
      [("invitee_id", Json.num user),
       ("role", Json.str role),
       ("team_ids", Json.arr (teams.map Json.num))])
    env

/-- `github.get_user_id(user)` (lines 132-147): GET `/users/{user}`;
on status 200 return `res.json()['id']` (raising when the body is not an
object with that key), otherwise return `None`. -/
def github.get_user_id (g : github) (user : String)
    (env : Nat → AttemptResult) : PyOutcome (Option Json) :=
  match (g.gh_request ("/users/" ++ user) "GET" (Json.obj []) env).outcome with
  | Except.error e => PyOutcome.apiError e
  | Except.ok res =>
      if res.status_code = 200 then
        match res.body.index "id" with
        | some v => PyOutcome.ok (some v)
        | none => PyOutcome.pyError "KeyError or TypeError on the id subscript of res.json()"
      else PyOutcome.ok none

/-- `github.list_teams(org)` (lines 149-165): GET `/orgs/{org}/teams`;
the value is the list of printed lines.  On status 200 the source runs
`for team in len(res)`: `len()` of a `requests.Response` raises
`TypeError` before anything is printed (and iterating the resulting
`int` would raise `TypeError` as well); on any other status it prints
a generic message. -/
def github.list_teams (g : github) (org : String)
    (env : Nat → AttemptResult) : PyOutcome (List String) :=
  match (g.gh_request ("/orgs/" ++ org ++ "/teams") "GET" (Json.obj [])
      env).outcome with
  | Except.error e => PyOutcome.apiError e
  | Except.ok res =>
      if res.status_code = 200 then
        PyOutcome.pyError "TypeError: object of type Response has no len()"
      else PyOutcome.ok ["Something unexpected happened"]

/-- `github.is_user_member_of_org(org, user_id)` (lines 167-179):
GET `/orgs/{org}/members/{user_id}`; returns `status_code == 204`. -/
def github.is_user_member_of_org (g : github) (org : String) (user_id : Int)
    (env : Nat → AttemptResult) : PyOutcome Bool :=
  match (g.gh_request ("/orgs/" ++ org ++ "/members/" ++ toString user_id)
      "GET" (Json.obj []) env).outcome with
  | Except.error e => PyOutcome.apiError e
  | Except.ok res => PyOutcome.ok (res.status_code == 204)

/-!  ## Helper definitions and lemmas about the retry loop -/

/-- The error `gh_request` raises at the last attempt when the response
status is retryable (403 or ≥ 500): rate-limit message for 403, server
error otherwise (lines 83-87 of `utils.py`). -/
def retryFinalError (res : Response) : GithubAPIError :=
  if res.status_code = 403 then
    { message := "Rate limit exceeded or insufficient permissions"
      status_code := some res.status_code
      response := some res.body }
  else
    { message := "GitHub server error"
      status_code := some res.status_code
      response := some res.body }

/-- The sleeps performed by loop iterations `a, a + 1, ..., a + f - 1`:
iteration `i > 0` sleeps `d * 2 ^ (i - 1)`, iteration 0 does not sleep. -/
def backoffs (d : Nat) : Nat → Nat → List Nat
  | _a, 0 => []
  | a, f + 1 => (if a > 0 then [d * 2 ^ (a - 1)] else []) ++ backoffs d (a + 1) f

/-- An attempt whose network outcome makes `gh_request` move on to the
next attempt (when it is not the last one): a response with a retryable
status (403 or ≥ 500), a timeout, or another request exception. -/
def retriesAt (env : Nat → AttemptResult) (i : Nat) : Prop :=
  (∃ res, env i = AttemptResult.ok res ∧
    (res.status_code = 403 ∨ 500 ≤ res.status_code)) ∨
  (∃ m, env i = AttemptResult.timeout m) ∨
  (∃ m s, env i = AttemptResult.reqError m s)

lemma backoffs_shift (d : Nat) :
    ∀ f a, backoffs d (a + 1) f = (List.range' a f).map (fun i => d * 2 ^ i) := by
  intro f
  induction f with
  | zero => intro a; rfl
  | succ f ih =>
      intro a
      rw [backoffs, List.range'_succ]
      simp only [Nat.add_sub_cancel, ih]
      simp

lemma backoffs_zero (d f : Nat) :
    backoffs d 0 (f + 1) = (List.range f).map (fun i => d * 2 ^ i) := by
  rw [backoffs]
  simp only [backoffs_shift]
  simp [List.range_eq_range']

lemma ghLoop_retryable (g : github) (env : Nat → AttemptResult) (r : Nat → Response)
    (henv : ∀ i, i < g.max_retries → env i = AttemptResult.ok (r i))
    (hst : ∀ i, i < g.max_retries →
      (r i).status_code = 403 ∨ 500 ≤ (r i).status_code) :
    ∀ fuel attempt lastExc, attempt + fuel = g.max_retries → 0 < fuel →
      g.ghLoop env fuel attempt lastExc =
        { outcome := Except.error (retryFinalError (r (g.max_retries - 1)))
          attempts := fuel
          sleeps := backoffs g.retry_delay attempt fuel } := by
  intro fuel
  induction fuel with
  | zero => intro a le hsum h0; omega
  | succ f ih =>
      intro attempt le hsum _
      have hlt : attempt < g.max_retries := by omega
      have henva := henv attempt hlt
      have hsta := hst attempt hlt
      have hc1 : ¬(400 ≤ (r attempt).status_code ∧ (r attempt).status_code < 500 ∧
          (r attempt).status_code ≠ 403) := by
        rcases hsta with h | h
        · simp [h]
        · omega
      simp only [github.ghLoop, henva, if_neg hc1, if_pos hsta]
      by_cases hlast : attempt = g.max_retries - 1
      · have hf : f = 0 := by omega
        subst hf
        simp only [if_pos hlast, hlast]
        by_cases h403 : (r (g.max_retries - 1)).status_code = 403
        · simp [h403, retryFinalError, backoffs, hlast]
        · simp [h403, retryFinalError, backoffs, hlast]
      · have hf : 0 < f := by omega
        simp only [if_neg hlast]
        rw [ih (attempt + 1) le (by omega) hf]
        simp [backoffs]

lemma ghLoop_all_timeout (g : github) (env : Nat → AttemptResult) (m : Nat → String)
    (henv : ∀ i, i < g.max_retries → env i = AttemptResult.timeout (m i)) :
    ∀ fuel attempt lastExc, attempt + fuel = g.max_retries → 0 < fuel →
      g.ghLoop env fuel attempt lastExc =
        { outcome := Except.error
            { message := "Request timed out after " ++ toString g.timeout ++
                " seconds"
              status_code := none
              response := none }
          attempts := fuel
          sleeps := backoffs g.retry_delay attempt fuel } := by
  intro fuel
  induction fuel with
  | zero => intro a le hsum h0; omega
  | succ f ih =>
      intro attempt le hsum _
      have hlt : attempt < g.max_retries := by omega
      have henva := henv attempt hlt
      simp only [github.ghLoop, henva]
      by_cases hlast : attempt = g.max_retries - 1
      · have hf : f = 0 := by omega
        subst hf
        simp [if_pos hlast, backoffs]
      · have hf : 0 < f := by omega
        simp only [if_neg hlast]
        rw [ih (attempt + 1) (some (m attempt)) (by omega) hf]
        simp [backoffs]

lemma ghLoop_timeouts_then_ok (g : github) (env : Nat → AttemptResult)
    (m : Nat → String) (res : Response)
    (henv : ∀ i, i < g.max_retries - 1 → env i = AttemptResult.timeout (m i))
    (hlastenv : env (g.max_retries - 1) = AttemptResult.ok res)
    (hok : res.status_code < 400 ∨ res.status_code = 404) :
    ∀ fuel attempt lastExc, attempt + fuel = g.max_retries → 0 < fuel →
      (g.ghLoop env fuel attempt lastExc).outcome = Except.ok res := by
  intro fuel
  induction fuel with
  | zero => intro a le hsum h0; omega
  | succ f ih =>
      intro attempt le hsum _
      by_cases hlast : attempt = g.max_retries - 1
      · have henva : env attempt = AttemptResult.ok res := by rw [hlast]; exact hlastenv
        simp only [github.ghLoop, henva]
        rcases hok with h | h
        · have hc1 : ¬(400 ≤ res.status_code ∧ res.status_code < 500 ∧
              res.status_code ≠ 403) := by omega
          have hc2 : ¬(res.status_code = 403 ∨ 500 ≤ res.status_code) := by omega
          simp [if_neg hc1, if_neg hc2]
        · have hc1 : 400 ≤ res.status_code ∧ res.status_code < 500 ∧
              res.status_code ≠ 403 := by omega
          have hc401 : ¬res.status_code = 401 := by omega
          simp [if_pos hc1, if_neg hc401, h]
      · have hlt : attempt < g.max_retries - 1 := by omega
        have hf : 0 < f := by omega
        have henva := henv attempt hlt
        simp only [github.ghLoop, henva, if_neg hlast]
        rw [ih (attempt + 1) (some (m attempt)) (by omega) hf]

lemma ghLoop_ok_status (g : github) (env : Nat → AttemptResult) :
    ∀ fuel attempt lastExc res,
      (g.ghLoop env fuel attempt lastExc).outcome = Except.ok res →
      res.status_code = 404 ∨ res.status_code < 400 := by
  intro fuel
  induction fuel with
  | zero =>
      intro a le res h
      simp [github.ghLoop] at h
  | succ f ih =>
      intro attempt le res h
      cases henv : env attempt with
      | ok r =>
          simp only [github.ghLoop, henv] at h
          by_cases hc1 : 400 ≤ r.status_code ∧ r.status_code < 500 ∧
              r.status_code ≠ 403
          · rw [if_pos hc1] at h
            by_cases h401 : r.status_code = 401
            · rw [if_pos h401] at h
              simp at h
            · rw [if_neg h401] at h
              by_cases h404 : r.status_code = 404
              · rw [if_pos h404] at h
                simp at h
                left
                rw [← h]
                exact h404
              · rw [if_neg h404] at h
                simp at h
          · rw [if_neg hc1] at h
            by_cases hc2 : r.status_code = 403 ∨ 500 ≤ r.status_code
            · rw [if_pos hc2] at h
              by_cases hlast : attempt = g.max_retries - 1
              · rw [if_pos hlast] at h
                by_cases h403 : r.status_code = 403
                · rw [if_pos h403] at h
                  simp at h
                · rw [if_neg h403] at h
                  simp at h
              · rw [if_neg hlast] at h
                exact ih (attempt + 1) le res h
            · rw [if_neg hc2] at h
              simp at h
              right
              rw [← h]
              omega
      | timeout ms =>
          simp only [github.ghLoop, henv] at h
          by_cases hlast : attempt = g.max_retries - 1
          · rw [if_pos hlast] at h
            simp at h
          · rw [if_neg hlast] at h
            exact ih (attempt + 1) (some ms) res h
      | reqError ms st =>
          simp only [github.ghLoop, henv] at h
          by_cases hlast : attempt = g.max_retries - 1
          · rw [if_pos hlast] at h
            simp at h
          · rw [if_neg hlast] at h
            exact ih (attempt + 1) (some ms) res h

lemma ghLoop_succ_ok_pass (g : github) (env : Nat → AttemptResult) (res : Response)
    (fuel attempt : Nat) (le : Option String)
    (henv : env attempt = AttemptResult.ok res)
    (hret : res.status_code < 400 ∨ res.status_code = 404) :
    g.ghLoop env (fuel + 1) attempt le =
      { outcome := Except.ok res
        attempts := 1
        sleeps := if attempt > 0 then [g.retry_delay * 2 ^ (attempt - 1)] else [] } := by
  rcases hret with h | h
  · have hc1 : ¬(400 ≤ res.status_code ∧ res.status_code < 500 ∧
        res.status_code ≠ 403) := by omega
    have hc2 : ¬(res.status_code = 403 ∨ 500 ≤ res.status_code) := by omega
    simp only [github.ghLoop, henv, if_neg hc1, if_neg hc2]
  · have hc1 : 400 ≤ res.status_code ∧ res.status_code < 500 ∧
        res.status_code ≠ 403 := by omega
    have h401 : ¬res.status_code = 401 := by omega
    simp only [github.ghLoop, henv, if_pos hc1, if_neg h401, if_pos h]

lemma ghLoop_succ_ok_401 (g : github) (env : Nat → AttemptResult) (res : Response)
    (fuel attempt : Nat) (le : Option String)
    (henv : env attempt = AttemptResult.ok res) (h : res.status_code = 401) :
    g.ghLoop env (fuel + 1) attempt le =
      { outcome := Except.error
          { message := "Authentication failed. Please check your GitHub token"
            status_code := some res.status_code
            response := some res.body }
        attempts := 1
        sleeps := if attempt > 0 then [g.retry_delay * 2 ^ (attempt - 1)] else [] } := by
  have hc1 : 400 ≤ res.status_code ∧ res.status_code < 500 ∧
      res.status_code ≠ 403 := by omega
  simp only [github.ghLoop, henv, if_pos hc1, if_pos h]

lemma ghLoop_succ_ok_client (g : github) (env : Nat → AttemptResult) (res : Response)
    (fuel attempt : Nat) (le : Option String)
    (henv : env attempt = AttemptResult.ok res)
    (h4 : 400 ≤ res.status_code) (h5 : res.status_code < 500)
    (h401 : res.status_code ≠ 401) (h403 : res.status_code ≠ 403)
    (h404 : res.status_code ≠ 404) :
    g.ghLoop env (fuel + 1) attempt le =
      { outcome := Except.error
          { message := "Client error: " ++ toString res.status_code
            status_code := some res.status_code
            response := some res.body }
        attempts := 1
        sleeps := if attempt > 0 then [g.retry_delay * 2 ^ (attempt - 1)] else [] } := by
  simp only [github.ghLoop, henv, if_pos (And.intro h4 (And.intro h5 h403)),
    if_neg h401, if_neg h404]

lemma ghLoop_skip_one (g : github) (env : Nat → AttemptResult)
    (fuel attempt : Nat) (le : Option String)
    (h : retriesAt env attempt) (hlast : attempt ≠ g.max_retries - 1) :
    ∃ le2 : Option String,
      (g.ghLoop env (fuel + 1) attempt le).outcome =
        (g.ghLoop env fuel (attempt + 1) le2).outcome ∧
      (g.ghLoop env (fuel + 1) attempt le).attempts =
        (g.ghLoop env fuel (attempt + 1) le2).attempts + 1 := by
  rcases h with ⟨res, henv, hst⟩ | ⟨m, henv⟩ | ⟨m, s, henv⟩
  · refine ⟨le, ?_⟩
    have hc1 : ¬(400 ≤ res.status_code ∧ res.status_code < 500 ∧
        res.status_code ≠ 403) := by
      rcases hst with h | h
      · simp [h]
      · omega
    simp [github.ghLoop, henv, if_neg hc1, if_pos hst, if_neg hlast]
  · refine ⟨some m, ?_⟩
    simp [github.ghLoop, henv, if_neg hlast]
  · refine ⟨some m, ?_⟩
    simp [github.ghLoop, henv, if_neg hlast]

lemma ghLoop_skip_many (g : github) (env : Nat → AttemptResult) :
    ∀ k, k < g.max_retries → (∀ i, i < k → retriesAt env i) →
    ∀ le : Option String, ∃ le2 : Option String,
      (g.ghLoop env g.max_retries 0 le).outcome =
        (g.ghLoop env (g.max_retries - k) k le2).outcome ∧
      (g.ghLoop env g.max_retries 0 le).attempts =
        k + (g.ghLoop env (g.max_retries - k) k le2).attempts := by
  intro k
  induction k with
  | zero =>
      intro hk hpre le
      exact ⟨le, by simp, by simp⟩
  | succ k ih =>
      intro hk hpre le
      obtain ⟨le2, ho, ha⟩ := ih (by omega) (fun i hi => hpre i (by omega)) le
      have hlast : k ≠ g.max_retries - 1 := by omega
      obtain ⟨f, hf⟩ : ∃ f, g.max_retries - k = f + 1 :=
        ⟨g.max_retries - k - 1, by omega⟩
      have hf2 : f = g.max_retries - (k + 1) := by omega
      obtain ⟨le3, ho2, ha2⟩ := ghLoop_skip_one g env f k le2
        (hpre k (by omega)) hlast
      rw [hf] at ho ha
      refine ⟨le3, ?_, ?_⟩
      · rw [ho, ho2, hf2]
      · rw [ha, ha2, hf2]
        omega

/-!  ## Claim theorems -/

/-- C1: if every attempt of a `gh_request` call observes an HTTP status in
403 or 500-599, the wrapper performs exactly `max_retries` attempts
(hence `max_retries - 1` retries), sleeps `retry_delay * 2 ^ (attempt - 1)`
seconds before each retry (delays `retry_delay * 1, 2, 4, ...`), and
finally fails with the rate-limit/permission error when the last status is
403 and the server-error otherwise. -/
theorem gh_request_retryable_exhausts_retries (g : github)
    (path method : String) (data : Json) (env : Nat → AttemptResult)
    (r : Nat → Response) (hm : 0 < g.max_retries)
    (henv : ∀ i, i < g.max_retries → env i = AttemptResult.ok (r i))
    (hst : ∀ i, i < g.max_retries → (r i).status_code = 403 ∨
      (500 ≤ (r i).status_code ∧ (r i).status_code ≤ 599)) :
    (g.gh_request path method data env).requests.length = g.max_retries ∧
    (g.gh_request path method data env).sleeps =
      (List.range (g.max_retries - 1)).map (fun i => g.retry_delay * 2 ^ i) ∧
    (g.gh_request path method data env).outcome =
      Except.error (retryFinalError (r (g.max_retries - 1))) := by
  have hst' : ∀ i, i < g.max_retries →
      (r i).status_code = 403 ∨ 500 ≤ (r i).status_code := by
    intro i hi
    rcases hst i hi with h | h
    · exact Or.inl h
    · exact Or.inr h.1
  have key := ghLoop_retryable g env r henv hst' g.max_retries 0 none
    (by omega) hm
  obtain ⟨mr, hmr⟩ : ∃ mr, g.max_retries = mr + 1 := ⟨g.max_retries - 1, by omega⟩
  refine ⟨?_, ?_, ?_⟩
  · simp [github.gh_request, key]
  · simp only [github.gh_request, key]
    rw [hmr, backoffs_zero]
    simp
  · simp [github.gh_request, key]

/-- Witness for C1 at the default configuration: three 503 responses give
three requests, sleeps of 1 and 2 seconds, and a final server error. -/
theorem gh_request_retryable_exhausts_retries_witness :
    ((github.init "tok" none).gh_request "/rate" "GET" (Json.obj [])
        (fun _ => AttemptResult.ok ⟨503, Json.null⟩)).requests.length = 3 ∧
    ((github.init "tok" none).gh_request "/rate" "GET" (Json.obj [])
        (fun _ => AttemptResult.ok ⟨503, Json.null⟩)).sleeps = [1, 2] ∧
    ((github.init "tok" none).gh_request "/rate" "GET" (Json.obj [])
        (fun _ => AttemptResult.ok ⟨503, Json.null⟩)).outcome =
      Except.error
        { message := "GitHub server error"
          status_code := some 503
          response := some Json.null } := by
  have h := gh_request_retryable_exhausts_retries (github.init "tok" none)
    "/rate" "GET" (Json.obj []) (fun _ => AttemptResult.ok ⟨503, Json.null⟩)
    (fun _ => ⟨503, Json.null⟩) (by decide) (fun i _ => rfl)
    (by intro i hi; exact Or.inr (And.intro (by norm_num) (by norm_num)))
  refine ⟨h.1, ?_, ?_⟩
  · rw [h.2.1]
    rfl
  · rw [h.2.2]
    rfl

/-- C2: a `gh_request` call whose first attempt observes HTTP status 404
raises no error and returns that response unchanged, with exactly one
request issued and no sleeps. -/
theorem gh_request_404_returned_verbatim (g : github) (path method : String)
    (data : Json) (env : Nat → AttemptResult) (res : Response)
    (hm : 0 < g.max_retries) (henv : env 0 = AttemptResult.ok res)
    (h404 : res.status_code = 404) :
    (g.gh_request path method data env).outcome = Except.ok res ∧
    (g.gh_request path method data env).requests.length = 1 ∧
    (g.gh_request path method data env).sleeps = [] := by
  obtain ⟨mr, hmr⟩ : ∃ mr, g.max_retries = mr + 1 := ⟨g.max_retries - 1, by omega⟩
  have key := ghLoop_succ_ok_pass g env res mr 0 none henv (Or.inr h404)
  refine ⟨?_, ?_, ?_⟩ <;> simp [github.gh_request, hmr, key]

/-- Witness for C2: a 404 response with a body is returned as-is. -/
theorem gh_request_404_returned_verbatim_witness :
    ((github.init "tok" none).gh_request "/users/ghost" "GET" (Json.obj [])
        (fun _ => AttemptResult.ok ⟨404, Json.str "missing"⟩)).outcome =
      Except.ok ⟨404, Json.str "missing"⟩ ∧
    ((github.init "tok" none).gh_request "/users/ghost" "GET" (Json.obj [])
        (fun _ => AttemptResult.ok ⟨404, Json.str "missing"⟩)).requests.length = 1 ∧
    ((github.init "tok" none).gh_request "/users/ghost" "GET" (Json.obj [])
        (fun _ => AttemptResult.ok ⟨404, Json.str "missing"⟩)).sleeps = [] :=
  gh_request_404_returned_verbatim (github.init "tok" none) "/users/ghost"
    "GET" (Json.obj []) (fun _ => AttemptResult.ok ⟨404, Json.str "missing"⟩)
    ⟨404, Json.str "missing"⟩ (by decide) rfl rfl

/-- C3: a `gh_request` call that observes status 401 at some attempt `k`
(every earlier attempt having caused a retry) fails at that attempt with
the authentication-failed error, issuing no further request; a call that
observes any other 4xx status excluding 403 and 404 likewise fails at
that attempt with the client-error error carrying that status.  In both
cases exactly `k + 1` requests are issued, so a first-attempt 401 or 4xx
fails with a single request and no retry. -/
theorem gh_request_4xx_fail_fast (g : github) (path method : String)
    (data : Json) (env : Nat → AttemptResult) (res : Response) (k : Nat)
    (hk : k < g.max_retries) (hpre : ∀ i, i < k → retriesAt env i)
    (henv : env k = AttemptResult.ok res) :
    (res.status_code = 401 →
      (g.gh_request path method data env).outcome =
        Except.error
          { message := "Authentication failed. Please check your GitHub token"
            status_code := some res.status_code
            response := some res.body } ∧
      (g.gh_request path method data env).requests.length = k + 1) ∧
    (400 ≤ res.status_code → res.status_code < 500 →
      res.status_code ≠ 401 → res.status_code ≠ 403 → res.status_code ≠ 404 →
      (g.gh_request path method data env).outcome =
        Except.error
          { message := "Client error: " ++ toString res.status_code
            status_code := some res.status_code
            response := some res.body } ∧
      (g.gh_request path method data env).requests.length = k + 1) := by
  obtain ⟨f, hf⟩ : ∃ f, g.max_retries - k = f + 1 :=
    ⟨g.max_retries - k - 1, by omega⟩
  obtain ⟨le2, ho, ha⟩ := ghLoop_skip_many g env k hk hpre none
  rw [hf] at ho ha
  constructor
  · intro h401
    have key := ghLoop_succ_ok_401 g env res f k le2 henv h401
    constructor
    · simp only [github.gh_request]
      rw [ho, key]
    · simp only [github.gh_request, List.length_replicate]
      rw [ha, key]
  · intro h4 h5 h401 h403 h404
    have key := ghLoop_succ_ok_client g env res f k le2 henv h4 h5 h401 h403 h404
    constructor
    · simp only [github.gh_request]
      rw [ho, key]
    · simp only [github.gh_request, List.length_replicate]
      rw [ha, key]

/-- Witness for C3: a 401 observed on the second attempt (after a 500)
fails with the authentication error after exactly two requests, and a
first-attempt 422 fails with the client error after one request. -/
theorem gh_request_4xx_fail_fast_witness :
    (((github.init "tok" none).gh_request "/a" "GET" (Json.obj [])
        (fun i => if i = 0 then AttemptResult.ok ⟨500, Json.null⟩
          else AttemptResult.ok ⟨401, Json.null⟩)).outcome =
      Except.error
        { message := "Authentication failed. Please check your GitHub token"
          status_code := some 401
          response := some Json.null } ∧
      ((github.init "tok" none).gh_request "/a" "GET" (Json.obj [])
        (fun i => if i = 0 then AttemptResult.ok ⟨500, Json.null⟩
          else AttemptResult.ok ⟨401, Json.null⟩)).requests.length = 2) ∧
    (((github.init "tok" none).gh_request "/b" "GET" (Json.obj [])
        (fun _ => AttemptResult.ok ⟨422, Json.null⟩)).outcome =
      Except.error
        { message := "Client error: 422"
          status_code := some 422
          response := some Json.null } ∧
      ((github.init "tok" none).gh_request "/b" "GET" (Json.obj [])
        (fun _ => AttemptResult.ok ⟨422, Json.null⟩)).requests.length = 1) := by
  constructor
  · exact (gh_request_4xx_fail_fast (github.init "tok" none) "/a" "GET"
      (Json.obj [])
      (fun i => if i = 0 then AttemptResult.ok ⟨500, Json.null⟩
        else AttemptResult.ok ⟨401, Json.null⟩)
      ⟨401, Json.null⟩ 1 (by decide)
      (by
        intro i hi
        have hi0 : i = 0 := by omega
        subst hi0
        exact Or.inl ⟨⟨500, Json.null⟩, rfl, Or.inr (by norm_num)⟩)
      rfl).1 rfl
  · exact (gh_request_4xx_fail_fast (github.init "tok" none) "/b" "GET"
      (Json.obj []) (fun _ => AttemptResult.ok ⟨422, Json.null⟩)
      ⟨422, Json.null⟩ 0 (by decide) (fun i hi => absurd hi (by omega))
      rfl).2 (by decide) (by decide) (by decide) (by decide) (by decide)

/-- C4: if every attempt of a `gh_request` call ends in a network-level
timeout, the call fails with the timed-out error after `max_retries`
attempts; if the first `max_retries - 1` attempts time out and the final
attempt returns a successful (sub-400) response, the call returns that
response. -/
theorem gh_request_timeout_policy (g : github) (path method : String)
    (data : Json) (env : Nat → AttemptResult) (m : Nat → String)
    (res : Response) (hm : 0 < g.max_retries) :
    ((∀ i, i < g.max_retries → env i = AttemptResult.timeout (m i)) →
      (g.gh_request path method data env).outcome =
        Except.error
          { message := "Request timed out after " ++ toString g.timeout ++
              " seconds"
            status_code := none
            response := none } ∧
      (g.gh_request path method data env).requests.length = g.max_retries) ∧
    ((∀ i, i < g.max_retries - 1 → env i = AttemptResult.timeout (m i)) →
      env (g.max_retries - 1) = AttemptResult.ok res →
      res.status_code < 400 →
      (g.gh_request path method data env).outcome = Except.ok res) := by
  constructor
  · intro henv
    have key := ghLoop_all_timeout g env m henv g.max_retries 0 none
      (by omega) hm
    constructor
    · simp [github.gh_request, key]
    · simp [github.gh_request, key]
  · intro henv hlast hok
    have key := ghLoop_timeouts_then_ok g env m res henv hlast (Or.inl hok)
      g.max_retries 0 none (by omega) hm
    simpa [github.gh_request] using key

/-- Witness for C4: three timeouts fail with the timed-out error after
three attempts; two timeouts followed by a 200 return the 200 response. -/
theorem gh_request_timeout_policy_witness :
    (((github.init "tok" none).gh_request "/a" "GET" (Json.obj [])
        (fun _ => AttemptResult.timeout "boom")).outcome =
      Except.error
        { message := "Request timed out after 30 seconds"
          status_code := none
          response := none } ∧
      ((github.init "tok" none).gh_request "/a" "GET" (Json.obj [])
        (fun _ => AttemptResult.timeout "boom")).requests.length = 3) ∧
    ((github.init "tok" none).gh_request "/a" "GET" (Json.obj [])
        (fun i => if i < 2 then AttemptResult.timeout "boom"
          else AttemptResult.ok ⟨200, Json.null⟩)).outcome =
      Except.ok ⟨200, Json.null⟩ := by
  constructor
  · have h := (gh_request_timeout_policy (github.init "tok" none) "/a" "GET"
      (Json.obj []) (fun _ => AttemptResult.timeout "boom") (fun _ => "boom")
      ⟨200, Json.null⟩ (by decide)).1 (fun i _ => rfl)
    exact ⟨by rw [h.1]; rfl, h.2⟩
  · have h := (gh_request_timeout_policy (github.init "tok" none) "/a" "GET"
      (Json.obj [])
      (fun i => if i < 2 then AttemptResult.timeout "boom"
        else AttemptResult.ok ⟨200, Json.null⟩)
      (fun _ => "boom") ⟨200, Json.null⟩ (by decide)).2
      (by intro i hi; exact if_pos hi) rfl (by decide)
    exact h

/-- C5: inviting user id 42 to org "acme" with no teams and the default
role issues exactly one POST request to `/orgs/acme/invitations` carrying
the JSON body with fields invitee_id 42, role "direct_member" and empty
team_ids, and a 201 response is returned unchanged. -/
theorem invite_user_org_single_post (auth : String) (o : Option String)
    (env : Nat → AttemptResult) (res : Response)
    (henv : env 0 = AttemptResult.ok res) (hst : res.status_code = 201) :
    (github.init auth o).invite_user_org "acme" 42 [] "direct_member" env =
      { requests :=
          [{ method := "POST"
             url := "https://api.github.com/orgs/acme/invitations"
             headers :=
               [("Accept", "application/vnd.github+json"),
                ("Authorization", "Bearer " ++ auth),
                ("X-GitHub-Api-Version", "2022-11-28")]
             payload := some
               "\x7b\"invitee_id\": 42, \"role\": \"direct_member\", \"team_ids\": []\x7d"
             timeout := 30 }]
        sleeps := []
        outcome := Except.ok res } := by
  have key := ghLoop_succ_ok_pass (github.init auth o) env res 2 0 none henv
    (Or.inl (by omega))
  simp only [github.invite_user_org, github.gh_request]
  rw [show (github.init auth o).max_retries = 2 + 1 from rfl, key]
  rfl

/-- Witness for C5: a concrete 201 response is passed through together
with the single POST request. -/
theorem invite_user_org_single_post_witness :
    (github.init "tok" none).invite_user_org "acme" 42 [] "direct_member"
        (fun _ => AttemptResult.ok ⟨201, Json.obj [("id", Json.num 9)]⟩) =
      { requests :=
          [{ method := "POST"
             url := "https://api.github.com/orgs/acme/invitations"
             headers :=
               [("Accept", "application/vnd.github+json"),
                ("Authorization", "Bearer tok"),
                ("X-GitHub-Api-Version", "2022-11-28")]
             payload := some
               "\x7b\"invitee_id\": 42, \"role\": \"direct_member\", \"team_ids\": []\x7d"
             timeout := 30 }]
        sleeps := []
        outcome := Except.ok ⟨201, Json.obj [("id", Json.num 9)]⟩ } := by
  have h := invite_user_org_single_post "tok" none
    (fun _ => AttemptResult.ok ⟨201, Json.obj [("id", Json.num 9)]⟩)
    ⟨201, Json.obj [("id", Json.num 9)]⟩ rfl rfl
  rw [h]
  simp

/-- C9: every request issued by `gh_request` carries the Accept,
Authorization (Bearer token) and X-GitHub-Api-Version headers, and a call
with the default empty body dict sends no payload at all. -/
theorem gh_request_headers_invariant (g : github) (path method : String)
    (data : Json) (env : Nat → AttemptResult) (req : Request)
    (hreq : req ∈ (g.gh_request path method data env).requests) :
    req.headers =
      [("Accept", "application/vnd.github+json"),
       ("Authorization", "Bearer " ++ g.auth),
       ("X-GitHub-Api-Version", "2022-11-28")] ∧
    (data = Json.obj [] → req.payload = none) := by
  simp only [github.gh_request, List.mem_replicate] at hreq
  obtain ⟨-, rfl⟩ := hreq
  constructor
  · rfl
  · intro hd
    subst hd
    rfl

/-- Witness for C9: the request of a plain GET call carries the three
headers and has no payload. -/
theorem gh_request_headers_invariant_witness :
    ((github.init "tok" none).gh_build_request "/user" "GET"
        (Json.obj [])).headers =
      [("Accept", "application/vnd.github+json"),
       ("Authorization", "Bearer tok"),
       ("X-GitHub-Api-Version", "2022-11-28")] ∧
    (Json.obj [] = Json.obj [] →
      ((github.init "tok" none).gh_build_request "/user" "GET"
        (Json.obj [])).payload = none) := by
  have h := gh_request_headers_invariant (github.init "tok" none) "/user"
    "GET" (Json.obj [])
    (fun _ => AttemptResult.ok ⟨200, Json.null⟩)
    ((github.init "tok" none).gh_build_request "/user" "GET" (Json.obj []))
    (by exact List.mem_singleton_self _)
  exact ⟨by rw [h.1]; simp [github.init], fun _ => h.2 rfl⟩

/-- C10: any response that `gh_request` returns as a value (rather than
raising) has status 404 or a status strictly below 400. -/
theorem gh_request_returned_status (g : github) (path method : String)
    (data : Json) (env : Nat → AttemptResult) (res : Response)
    (h : (g.gh_request path method data env).outcome = Except.ok res) :
    res.status_code = 404 ∨ res.status_code < 400 := by
  simp only [github.gh_request] at h
  exact ghLoop_ok_status g env g.max_retries 0 none res h

/-- Witness for C10: instantiating the invariant at a returned 200
response. -/
theorem gh_request_returned_status_witness :
    (⟨200, Json.null⟩ : Response).status_code = 404 ∨
    (⟨200, Json.null⟩ : Response).status_code < 400 :=
  gh_request_returned_status (github.init "tok" none) "/a" "GET"
    (Json.obj []) (fun _ => AttemptResult.ok ⟨200, Json.null⟩)
    ⟨200, Json.null⟩ rfl

/-- C6 counterexample: for the non-200 status 401, `get_user_id` does not
return the sentinel `None`; it raises the authentication `GithubAPIError`
coming from `gh_request`. -/
theorem get_user_id_non200_counterexample :
    (github.init "tok" none).get_user_id "alice"
        (fun _ => AttemptResult.ok ⟨401, Json.obj []⟩) ≠ PyOutcome.ok none ∧
    (github.init "tok" none).get_user_id "alice"
        (fun _ => AttemptResult.ok ⟨401, Json.obj []⟩) =
      PyOutcome.apiError
        { message := "Authentication failed. Please check your GitHub token"
          status_code := some 401
          response := some (Json.obj []) } := by
  have heval : (github.init "tok" none).get_user_id "alice"
      (fun _ => AttemptResult.ok ⟨401, Json.obj []⟩) =
      PyOutcome.apiError
        { message := "Authentication failed. Please check your GitHub token"
          status_code := some 401
          response := some (Json.obj []) } := rfl
  refine ⟨?_, heval⟩
  rw [heval]
  simp

/-- C6 amended: `get_user_id` issues one GET request to `/users/{user}`
and, for a first attempt whose status `gh_request` passes through (any
status below 400, or 404), returns the id value from the JSON body when
the status is 200 and the sentinel `None` for the other passed-through
statuses; error-classified statuses instead propagate the raised
`GithubAPIError`. -/
theorem get_user_id_amended (g : github) (user : String)
    (env : Nat → AttemptResult) (res : Response)
    (hm : 0 < g.max_retries) (henv : env 0 = AttemptResult.ok res)
    (hret : res.status_code < 400 ∨ res.status_code = 404) :
    g.get_user_id user env =
      (if res.status_code = 200 then
        (match res.body.index "id" with
         | some v => PyOutcome.ok (some v)
         | none =>
            PyOutcome.pyError "KeyError or TypeError on the id subscript of res.json()")
      else PyOutcome.ok none) ∧
    (g.gh_request ("/users/" ++ user) "GET" (Json.obj []) env).requests =
      [{ method := "GET"
         url := "https://api.github.com" ++ ("/users/" ++ user)
         headers := g.gh_headers
         payload := none
         timeout := g.timeout }] := by
  obtain ⟨mr, hmr⟩ : ∃ mr, g.max_retries = mr + 1 := ⟨g.max_retries - 1, by omega⟩
  have key := ghLoop_succ_ok_pass g env res mr 0 none henv hret
  constructor
  · simp only [github.get_user_id, github.gh_request, hmr, key]
  · simp only [github.gh_request, hmr, key]
    rfl

/-- Witness for the amended C6: a 200 response whose body holds id 7
yields 7, and a single GET request to `/users/alice` is issued. -/
theorem get_user_id_amended_witness :
    (github.init "tok" none).get_user_id "alice"
        (fun _ => AttemptResult.ok ⟨200, Json.obj [("id", Json.num 7)]⟩) =
      PyOutcome.ok (some (Json.num 7)) ∧
    ((github.init "tok" none).gh_request "/users/alice" "GET" (Json.obj [])
        (fun _ => AttemptResult.ok ⟨200, Json.obj [("id", Json.num 7)]⟩)).requests =
      [{ method := "GET"
         url := "https://api.github.com/users/alice"
         headers :=
           [("Accept", "application/vnd.github+json"),
            ("Authorization", "Bearer tok"),
            ("X-GitHub-Api-Version", "2022-11-28")]
         payload := none
         timeout := 30 }] := by
  have h := get_user_id_amended (github.init "tok" none) "alice"
    (fun _ => AttemptResult.ok ⟨200, Json.obj [("id", Json.num 7)]⟩)
    ⟨200, Json.obj [("id", Json.num 7)]⟩ (by decide) rfl (Or.inl (by decide))
  constructor
  · rw [h.1]
    rfl
  · show ((github.init "tok" none).gh_request ("/users/" ++ "alice") "GET"
        (Json.obj [])
        (fun _ => AttemptResult.ok ⟨200, Json.obj [("id", Json.num 7)]⟩)).requests = _
    rw [h.2]
    simp [github.gh_headers, github.init]

/-- C7 counterexample: for the status 401, `is_user_member_of_org` does
not return `false`; it raises the authentication `GithubAPIError` coming
from `gh_request`. -/
theorem is_user_member_of_org_counterexample :
    (github.init "tok" none).is_user_member_of_org "acme" 42
        (fun _ => AttemptResult.ok ⟨401, Json.obj []⟩) ≠ PyOutcome.ok false ∧
    (github.init "tok" none).is_user_member_of_org "acme" 42
        (fun _ => AttemptResult.ok ⟨401, Json.obj []⟩) =
      PyOutcome.apiError
        { message := "Authentication failed. Please check your GitHub token"
          status_code := some 401
          response := some (Json.obj []) } := by
  have heval : (github.init "tok" none).is_user_member_of_org "acme" 42
      (fun _ => AttemptResult.ok ⟨401, Json.obj []⟩) =
      PyOutcome.apiError
        { message := "Authentication failed. Please check your GitHub token"
          status_code := some 401
          response := some (Json.obj []) } := rfl
  refine ⟨?_, heval⟩
  rw [heval]
  simp

/-- C7 amended: `is_user_member_of_org` issues a GET request to
`/orgs/{org}/members/{user_id}` and, for a first attempt whose status
`gh_request` passes through (below 400, or 404), returns exactly the
boolean `status_code == 204`; error-classified statuses instead
propagate the raised `GithubAPIError`. -/
theorem is_user_member_of_org_amended (g : github) (org : String)
    (user_id : Int) (env : Nat → AttemptResult) (res : Response)
    (hm : 0 < g.max_retries) (henv : env 0 = AttemptResult.ok res)
    (hret : res.status_code < 400 ∨ res.status_code = 404) :
    g.is_user_member_of_org org user_id env =
      PyOutcome.ok (res.status_code == 204) ∧
    ((res.status_code == 204) = true ↔ res.status_code = 204) ∧
    (g.gh_request ("/orgs/" ++ org ++ "/members/" ++ toString user_id)
        "GET" (Json.obj []) env).requests =
      [{ method := "GET"
         url := "https://api.github.com" ++
           ("/orgs/" ++ org ++ "/members/" ++ toString user_id)
         headers := g.gh_headers
         payload := none
         timeout := g.timeout }] := by
  obtain ⟨mr, hmr⟩ : ∃ mr, g.max_retries = mr + 1 := ⟨g.max_retries - 1, by omega⟩
  have key := ghLoop_succ_ok_pass g env res mr 0 none henv hret
  refine ⟨?_, beq_iff_eq, ?_⟩
  · simp only [github.is_user_member_of_org, github.gh_request, hmr, key]
  · simp only [github.gh_request, hmr, key]
    rfl

/-- Witness for the amended C7: a 204 response gives `true` and a single
GET request to `/orgs/acme/members/42` is issued. -/
theorem is_user_member_of_org_amended_witness :
    (github.init "tok" none).is_user_member_of_org "acme" 42
        (fun _ => AttemptResult.ok ⟨204, Json.null⟩) = PyOutcome.ok true ∧
    (((204 : Nat) == 204) = true ↔ (204 : Nat) = 204) ∧
    ((github.init "tok" none).gh_request "/orgs/acme/members/42" "GET"
        (Json.obj [])
        (fun _ => AttemptResult.ok ⟨204, Json.null⟩)).requests =
      [{ method := "GET"
         url := "https://api.github.com/orgs/acme/members/42"
         headers :=
           [("Accept", "application/vnd.github+json"),
            ("Authorization", "Bearer tok"),
            ("X-GitHub-Api-Version", "2022-11-28")]
         payload := none
         timeout := 30 }] := by
  have h := is_user_member_of_org_amended (github.init "tok" none) "acme" 42
    (fun _ => AttemptResult.ok ⟨204, Json.null⟩) ⟨204, Json.null⟩
    (by decide) rfl (Or.inl (by decide))
  refine ⟨by rw [h.1]; rfl, h.2.1, ?_⟩
  show ((github.init "tok" none).gh_request
      ("/orgs/" ++ "acme" ++ "/members/" ++ toString (42 : Int)) "GET"
      (Json.obj [])
      (fun _ => AttemptResult.ok ⟨204, Json.null⟩)).requests = _
  rw [h.2.2]
  simp only [github.gh_headers, github.init]
  rfl

/-- C8: on a 200 response carrying a JSON array of team objects,
`list_teams` does not print one name/id pair per team: line 162 of
`utils.py` runs `for team in len(res)`, and `len()` of a
`requests.Response` raises `TypeError` before anything is printed.
On a passed-through non-200 status (here 404) it prints the generic
failure message. -/
theorem list_teams_typeerror_on_200 :
    (github.init "tok" none).list_teams "acme"
        (fun _ => AttemptResult.ok
          ⟨200, Json.arr [Json.obj [("name", Json.str "devs"), ("id", Json.num 1)]]⟩) =
      PyOutcome.pyError "TypeError: object of type Response has no len()" ∧
    (github.init "tok" none).list_teams "acme"
        (fun _ => AttemptResult.ok ⟨404, Json.null⟩) =
      PyOutcome.ok ["Something unexpected happened"] := by
  exact ⟨rfl, rfl⟩
